import Mathlib

/-!
Shallow embedding of the mod.io downloader pipeline (`Mod.io-DLGUI.py`):
reference parsing (`parse_mod_url`, the identifier-pair fallback of
`start_download_thread`), slug resolution, metadata fetch, binary retrieval
and archive normalization (`unzip_pak_file`), as orchestrated by
`download_mod`.  Network and archive effects are supplied by explicit
oracle records; the local filesystem is an association list from paths to
byte lists.
-/

/-- Byte payloads are lists of naturals (each < 256 in intended use). -/
abbrev Bin := List Nat

/-- The local filesystem: an association list from absolute paths to contents. -/
abbrev FS := List (String × Bin)

/-- Writing a file: replace the entry at the path if present, else append.
Models `open(filepath, "wb")` which truncates and overwrites. -/
def fsWrite : FS → String → Bin → FS
  | [], p, b => [(p, b)]
  | (q, c) :: rest, p, b =>
      if q = p then (p, b) :: rest else (q, c) :: fsWrite rest p b

/-- Deleting a file, models `os.remove`. -/
def fsRemove : FS → String → FS
  | [], _ => []
  | (q, c) :: rest, p =>
      if q = p then fsRemove rest p else (q, c) :: fsRemove rest p

/-- Reading a file. -/
def lookupFS : FS → String → Option Bin
  | [], _ => none
  | (q, c) :: rest, p => if q = p then some c else lookupFS rest p

/-- Whether the first character list is an initial run of the second. -/
def listStarts : List Char → List Char → Bool
  | [], _ => true
  | _ :: _, [] => false
  | a :: as, b :: bs => a == b && listStarts as bs

/-- `str.startswith`. -/
def strStartsWith (s pre : String) : Bool :=
  listStarts pre.toList s.toList

/-- `str.endswith`. -/
def strEndsWith (s suf : String) : Bool :=
  listStarts suf.toList.reverse s.toList.reverse

/-- `os.path.join` for two POSIX components, as the script uses it:
an absolute second component replaces the first; otherwise the parts are
joined with a single separator. -/
def joinPath (a b : String) : String :=
  if strStartsWith b "/" then b
  else if a = "" then b
  else if strEndsWith a "/" then a ++ b
  else a ++ "/" ++ b

/-- Directory holding the script, modelling `os.path.dirname(os.path.abspath(__file__))`
(its concrete value depends on where the script is installed). -/
def SCRIPT_DIR : String := "/app"

/-- `DOWNLOAD_FOLDER = os.path.join(os.path.dirname(os.path.abspath(__file__)), "downloaded")`. -/
def DOWNLOAD_FOLDER : String := joinPath SCRIPT_DIR "downloaded"

/-- Normalize a path component list by dropping empty and `.` segments and
resolving `..` against the accumulated stack (root-anchored). -/
def normSegs : List String → List String → List String
  | acc, [] => acc.reverse
  | acc, s :: rest =>
      if s = "" ∨ s = "." then normSegs acc rest
      else if s = ".." then normSegs (acc.drop 1) rest
      else normSegs (s :: acc) rest

/-- Boolean list-leading test (the first list is an initial segment of the second). -/
def listLeads : List String → List String → Bool
  | [], _ => true
  | _ :: _, [] => false
  | a :: as, b :: bs => a == b && listLeads as bs

/-- Split a character list at every occurrence of `c` (keeping empty parts,
like Python `str.split` with an explicit separator). -/
def splitCharList (c : Char) : List Char → List (List Char)
  | [] => [[]]
  | a :: rest =>
      let gs := splitCharList c rest
      if a = c then [] :: gs
      else
        match gs with
        | g :: gs2 => (a :: g) :: gs2
        | [] => [[a]]

/-- The `/`-separated segments of a path. -/
def splitSegs (s : String) : List String :=
  (splitCharList '/' s.toList).map String.mk

/-- Whether the fully normalized `p` stays inside the directory `dir`. -/
def pathWithin (dir p : String) : Bool :=
  listLeads (normSegs [] (splitSegs dir)) (normSegs [] (splitSegs p))

/-- Whether a filename contains a parent-directory segment. -/
def hasParentSeg (s : String) : Bool :=
  (splitSegs s).any (· = "..")

/-- Python `str.isdigit`: nonempty and all digits. -/
def pyIsDigit (s : String) : Bool :=
  !s.isEmpty && s.toList.all Char.isDigit

/-! ## Reference parser: `parse_mod_url` and the `game_id:mod_id` fallback -/

/-- Match a literal character list at the head, returning the remainder. -/
def dropLit : List Char → List Char → Option (List Char)
  | [], cs => some cs
  | _ :: _, [] => none
  | l :: ls, c :: cs => if l = c then dropLit ls cs else none

/-- Try to match the regex `/games/(\d+)/mods/(\d+)` at the head of `cs`,
returning the two captured groups.  `\d+` is greedy and cannot match `/`,
so each group is the maximal digit run; no backtracking is possible. -/
def matchNumAt (cs : List Char) : Option (String × String) :=
  match dropLit "/games/".toList cs with
  | none => none
  | some r1 =>
      let g1 := r1.takeWhile Char.isDigit
      if g1.isEmpty then none
      else
        match dropLit "/mods/".toList (r1.dropWhile Char.isDigit) with
        | none => none
        | some r2 =>
            let g2 := r2.takeWhile Char.isDigit
            if g2.isEmpty then none
            else some (String.mk g1, String.mk g2)

/-- `re.search` for the numeric pattern: leftmost starting position wins. -/
def searchNum : List Char → Option (String × String)
  | [] => none
  | c :: cs =>
      match matchNumAt (c :: cs) with
      | some g => some g
      | none => searchNum cs

/-- Try to match the regex `/g/([^/]+)/m/([^/]+)` at the head of `cs`.
`[^/]+` is greedy and cannot match `/`, so each group is the maximal
non-separator run; no backtracking is possible. -/
def matchSlugAt (cs : List Char) : Option (String × String) :=
  match dropLit "/g/".toList cs with
  | none => none
  | some r1 =>
      let s1 := r1.takeWhile (· ≠ '/')
      if s1.isEmpty then none
      else
        match dropLit "/m/".toList (r1.dropWhile (· ≠ '/')) with
        | none => none
        | some r2 =>
            let s2 := r2.takeWhile (· ≠ '/')
            if s2.isEmpty then none
            else some (String.mk s1, String.mk s2)

/-- `re.search` for the slug pattern: leftmost starting position wins. -/
def searchSlug : List Char → Option (String × String)
  | [] => none
  | c :: cs =>
      match matchSlugAt (c :: cs) with
      | some g => some g
      | none => searchSlug cs

/-- `parse_mod_url`: numeric pattern first, then slug pattern, else `(None, None)`. -/
def parse_mod_url (url : String) : Option String × Option String :=
  match searchNum url.toList with
  | some (a, b) => (some a, some b)
  | none =>
      match searchSlug url.toList with
      | some (a, b) => (some a, some b)
      | none => (none, none)

/-- `re.match(r'^\d+:\d+$', url)`: digits, one colon, digits, end of string
(the input has already been stripped, so `$` is the end). -/
def isIdPairFormat (s : String) : Bool :=
  match s.toList.dropWhile Char.isDigit with
  | ':' :: rest =>
      !(s.toList.takeWhile Char.isDigit).isEmpty
        && !rest.isEmpty && rest.all Char.isDigit
  | _ => false

/-- `url.split(":")` unpacked into two values (used only under `isIdPairFormat`,
which guarantees exactly one colon): the parts before and after it. -/
def splitPair (s : String) : String × String :=
  (String.mk (s.toList.takeWhile (· ≠ ':')),
   String.mk ((s.toList.dropWhile (· ≠ ':')).drop 1))

/-- Python `str.strip()`: drop leading and trailing whitespace. -/
def pyStrip (s : String) : String :=
  String.mk (((s.toList.dropWhile Char.isWhitespace).reverse.dropWhile
    Char.isWhitespace).reverse)

/-- `url.split('#')[0]`: everything before the first `#` (the whole string
when there is none). -/
def beforeHash (s : String) : String :=
  String.mk (s.toList.takeWhile (· ≠ '#'))

/-- The parsing portion of `start_download_thread`: strip the input, drop any
`#` fragment, reject the empty string, try `parse_mod_url`, then fall back to
the literal `game_id:mod_id` format; the download thread starts only when both
identifiers are truthy (nonempty). -/
def start_download_parse (input : String) : Option (String × String) :=
  let url1 := pyStrip input
  let url := beforeHash url1
  if url = "" then none
  else
    let gm :=
      match parse_mod_url url with
      | (none, none) => if isIdPairFormat url then some (splitPair url) else none
      | (some g, some m) => some (g, m)
      | (_, _) => none
    match gm with
    | some (g, m) => if g ≠ "" ∧ m ≠ "" then some (g, m) else none
    | none => none

/-! ## Archive normalizer: `unzip_pak_file` -/

/-- `os.path.basename`: the part after the last `/`. -/
def basename (p : String) : String :=
  (splitSegs p).getLastD p

/-- Outcome of `zipfile.ZipFile(path, 'r')`: `bad` models `BadZipFile`,
`ok names` yields `namelist()` in archive enumeration order. -/
inductive ZipOpen where
  | bad
  | ok (names : List String)
deriving Repr, DecidableEq

/-- The archive-side environment of `unzip_pak_file`: how the container opens,
whether extracting a given entry succeeds and what bytes it produces, and
whether `os.remove` on the container succeeds. -/
structure ZipEnv where
  openResult : ZipOpen
  extractOk : String → Bool
  content : String → Bin
  extractErr : String
  removeOk : Bool
  removeErr : String

/-- Messages plus the extraction/deletion record produced by `unzip_pak_file`. -/
structure UnzipResult where
  extracted : List (String × String) := []
  deleteAttempted : Bool := false
  deleted : Bool := false
  msgs : List (String × String) := []
deriving Repr, DecidableEq

/-- The first entry whose name ends with `.pak`, in enumeration order —
the entry the loop in `unzip_pak_file` extracts before `break`. -/
def firstPak : List String → Option String
  | [] => none
  | n :: ns => if strEndsWith n ".pak" then some n else firstPak ns

/-- `unzip_pak_file(zip_filepath, extract_to_folder, message_queue)`:
open the archive (announcing first, as the script does), extract the first
`.pak` entry preserving its internal relative path, and delete the container
only when that extraction completed; `BadZipFile` and extraction errors
return early without deleting. -/
def unzip_pak_file (z : ZipEnv) (fs : FS) (zip_filepath extract_to_folder : String) :
    UnzipResult × FS :=
  let bn := basename zip_filepath
  let m0 : List (String × String) :=
    [(s!"Found .pak file. Extracting from '{bn}'...\n", "normal")]
  match z.openResult with
  | ZipOpen.bad =>
      ({ msgs := m0 ++
          [("Error: The downloaded file is not a valid zip archive. Skipping unzip.\n",
            "red")] }, fs)
  | ZipOpen.ok names =>
      match firstPak names with
      | none => ({ msgs := m0 }, fs)
      | some n =>
          if z.extractOk n then
            let target := joinPath extract_to_folder n
            let fs1 := fsWrite fs target (z.content n)
            let e := z.extractErr
            let _ := e
            let r0 : UnzipResult :=
              { extracted := [(n, target)]
                deleteAttempted := true
                msgs := m0 ++ [("Extraction complete.\n", "normal"),
                               ("Cleaning up...\n", "normal")] }
            if z.removeOk then
              ({ r0 with deleted := true
                         msgs := r0.msgs ++
                           [(s!"Original zip file deleted: {zip_filepath}\n", "normal")] },
               fsRemove fs1 zip_filepath)
            else
              ({ r0 with msgs := r0.msgs ++
                  [(s!"An error occurred during cleanup: {z.removeErr}\n", "red")] }, fs1)
          else
            ({ msgs := m0 ++
                [(s!"An error occurred during unzip: {z.extractErr}\n", "red")] }, fs)

/-! ## Challenge session, metadata fetch, binary retrieval: `download_mod` -/

/-- One element of a parsed API response's `data` list, with the fields the
script reads: `id` for the lookup endpoints, `filename` and
`download.binary_url` for the files endpoint. -/
structure ApiItem where
  id : Nat
  filename : String
  binary_url : String
deriving Repr, DecidableEq

/-- The network-and-archive environment of one `download_mod` run.  `goto` is
the Cloudflare-challenge navigation; `api` is `fetch_api_data` (throws on
non-2xx or parse failure); `fetchBin` is the in-page binary fetch; `isZip` is
`zipfile.is_zipfile` applied to the just-written content (signature-based);
`zip` drives `unzip_pak_file`. -/
structure Oracle where
  goto : Except String Unit
  api : String → Except String (List ApiItem)
  fetchBin : String → Except String Bin
  isZip : Bin → Bool
  zip : ZipEnv

/-- Observable state of one `download_mod` run: API calls in issue order,
binary fetches, the one-way message queue, the filesystem, the binary writes
performed by the retriever, and the teardown flags. -/
structure St where
  apiCalls : List String
  binCalls : List String
  msgs : List (String × String)
  fs : FS
  writes : List (String × Bin)
  browserClosed : Bool
  released : Bool
deriving Repr

def St.init (fs0 : FS) : St :=
  ⟨[], [], [], fs0, [], false, false⟩

def addMsg (st : St) (t tag : String) : St :=
  { st with msgs := st.msgs ++ [(t, tag)] }

/-- URL of the namespace (game) lookup: `https://api.mod.io/v1/games?name_id={g}`. -/
def gamesLookupUrl (g : String) : String :=
  s!"https://api.mod.io/v1/games?name_id={g}"

/-- URL of the scoped content (mod) lookup:
`https://api.mod.io/v1/games/{game_id}/mods?name_id={m}`. -/
def modsLookupUrl (game_id m : String) : String :=
  s!"https://api.mod.io/v1/games/{game_id}/mods?name_id={m}"

/-- URL of the files listing:
`https://api.mod.io/v1/games/{game_id}/mods/{mod_id}/files`. -/
def filesUrl (game_id mod_id : String) : String :=
  s!"https://api.mod.io/v1/games/{game_id}/mods/{mod_id}/files"

/-- The resolution block of `download_mod` (lines 146-169): if either
identifier is not purely numeric, look BOTH up — namespace lookup first,
then the content lookup scoped by `str(game_data["data"][0]["id"])`; only a
fully numeric pair is passed through unchanged.  Returns the outcome, the
API calls issued (in order) and the messages emitted. -/
def dmResolve (o : Oracle) (g m : String) :
    Except String (String × String) × List String × List (String × String) :=
  if !(pyIsDigit g) || !(pyIsDigit m) then
    match o.api (gamesLookupUrl g) with
    | Except.error e =>
        (Except.error e, [gamesLookupUrl g],
         [("Identifiers are slugs. Looking up numerical IDs...\n", "normal")])
    | Except.ok [] =>
        (Except.error s!"Game '{g}' not found on mod.io.", [gamesLookupUrl g],
         [("Identifiers are slugs. Looking up numerical IDs...\n", "normal")])
    | Except.ok (gi :: _) =>
        match o.api (modsLookupUrl (toString gi.id) m) with
        | Except.error e =>
            (Except.error e,
             [gamesLookupUrl g, modsLookupUrl (toString gi.id) m],
             [("Identifiers are slugs. Looking up numerical IDs...\n", "normal")])
        | Except.ok [] =>
            (Except.error s!"Mod '{m}' not found for game '{g}'.",
             [gamesLookupUrl g, modsLookupUrl (toString gi.id) m],
             [("Identifiers are slugs. Looking up numerical IDs...\n", "normal")])
        | Except.ok (mi :: _) =>
            (Except.ok (toString gi.id, toString mi.id),
             [gamesLookupUrl g, modsLookupUrl (toString gi.id) m],
             [("Identifiers are slugs. Looking up numerical IDs...\n", "normal")])
  else
    (Except.ok (g, m), [], [])

/-- The body of the `async with async_playwright()` block in `download_mod`:
challenge navigation, resolution, files-listing fetch, binary retrieval and
write, archive normalization, and `browser.close()` on the success path.
`Except.error` carries the exception text and the state at the raise point. -/
def dmBody (o : Oracle) (st0 : St) (g m : String) : Except (String × St) St :=
  let st := addMsg st0 "Bypassing Cloudflare challenge...\n" "normal"
  match o.goto with
  | Except.error e => Except.error (e, st)
  | Except.ok _ =>
  let st := addMsg st "Cloudflare challenge bypassed.\n" "normal"
  match dmResolve o g m with
  | (Except.error e, calls, ms) =>
      Except.error (e, { st with apiCalls := st.apiCalls ++ calls
                                 msgs := st.msgs ++ ms })
  | (Except.ok (game_id, mod_id), calls, ms) =>
  let st := { st with apiCalls := st.apiCalls ++ calls, msgs := st.msgs ++ ms }
  let api_url := filesUrl game_id mod_id
  let st := addMsg st s!"Fetching mod information from API: {api_url}\n" "normal"
  let st := { st with apiCalls := st.apiCalls ++ [api_url] }
  match o.api api_url with
  | Except.error e => Except.error (e, st)
  | Except.ok data =>
  match data with
  | file_info :: _ =>
      let download_url := file_info.binary_url
      let filename := file_info.filename
      let filepath := joinPath DOWNLOAD_FOLDER filename
      let st := addMsg st
        s!"Found mod file: {filename}. Downloading from {download_url}...\n" "normal"
      let st := { st with binCalls := st.binCalls ++ [download_url] }
      match o.fetchBin download_url with
      | Except.error e => Except.error (e, st)
      | Except.ok binary_data =>
          let st := { st with fs := fsWrite st.fs filepath binary_data
                              writes := st.writes ++ [(filepath, binary_data)] }
          let st := addMsg st s!"Download complete: {filepath}\n" "normal"
          let st :=
            if o.isZip binary_data then
              let r := unzip_pak_file o.zip st.fs filepath DOWNLOAD_FOLDER
              { st with fs := r.2, msgs := st.msgs ++ r.1.msgs }
            else st
          Except.ok { st with browserClosed := true }
  | [] =>
      let st := addMsg st "No files found for this mod.\n" "normal"
      Except.ok { st with browserClosed := true }

/-- `download_mod(game_identifier, mod_identifier, oauth_key, message_queue)`:
run the body inside `async with async_playwright()` — whose exit releases the
browser/context on every path — and turn any exception into one red message
(the `except` at the end of the function). -/
def download_mod (o : Oracle) (fs0 : FS) (g m : String) : St :=
  match dmBody o (St.init fs0) g m with
  | Except.ok st => { st with released := true }
  | Except.error (e, st) =>
      addMsg { st with released := true }
        s!"An error occurred during the download process: {e}\n" "red"

/-! ## Concrete environments used to instantiate the theorems -/

/-- A zip environment whose container opens with one `.pak` entry. -/
def zOnePak : ZipEnv :=
  ⟨ZipOpen.ok ["readme.txt", "sub/area.pak", "late.pak"], fun _ => true,
   fun _ => [1, 2], "boom", true, "busy"⟩

/-- A zip environment whose container fails to open (`BadZipFile`). -/
def zBadOpen : ZipEnv :=
  ⟨ZipOpen.bad, fun _ => true, fun _ => [], "boom", true, "busy"⟩

/-- An oracle whose every lookup answers with one item of id 77. -/
def oMixed : Oracle :=
  ⟨Except.ok (), fun _ => Except.ok [⟨77, "file.zip", "https://cdn/bin"⟩],
   fun _ => Except.ok [], fun _ => false, zBadOpen⟩

/-- An oracle whose every API call answers with an empty `data` list. -/
def oNoFiles : Oracle :=
  ⟨Except.ok (), fun _ => Except.ok [],
   fun _ => Except.ok [], fun _ => false, zBadOpen⟩

/-- An oracle serving one non-archive file named `m.zip` with payload `[5, 6]`. -/
def oPlain : Oracle :=
  ⟨Except.ok (), fun _ => Except.ok [⟨9, "m.zip", "https://cdn/bin"⟩],
   fun _ => Except.ok [5, 6], fun _ => false, zOnePak⟩

/-- A destination already populated at the path the retriever writes to. -/
def fsPopulated : FS := [(joinPath DOWNLOAD_FOLDER "m.zip", [0])]

/-! ## Helper lemmas -/

theorem lookupFS_fsWrite (fs : FS) (p : String) (b : Bin) :
    lookupFS (fsWrite fs p b) p = some b := by
  induction fs with
  | nil => simp [fsWrite, lookupFS]
  | cons hd tl ih =>
      obtain ⟨q, c⟩ := hd
      by_cases hq : q = p
      · simp [fsWrite, lookupFS, hq]
      · simp [fsWrite, lookupFS, hq, ih]

theorem firstPak_eq_some (names : List String) (n : String)
    (h : firstPak names = some n) :
    ∃ p q, names = p ++ n :: q ∧ strEndsWith n ".pak" = true ∧
      ∀ y ∈ p, strEndsWith y ".pak" = false := by
  induction names with
  | nil => simp [firstPak] at h
  | cons a as ih =>
      by_cases ha : strEndsWith a ".pak" = true
      · simp [firstPak, ha] at h
        subst h
        exact ⟨[], as, rfl, ha, by simp⟩
      · simp [firstPak, ha] at h
        obtain ⟨p, q, hpq, hend, hall⟩ := ih h
        refine ⟨a :: p, q, by simp [hpq], hend, ?_⟩
        intro y hy
        rcases List.mem_cons.mp hy with rfl | hy'
        · simpa using ha
        · exact hall y hy'

theorem dmResolve_msgs_normal (o : Oracle) (g m : String) :
    ∀ p ∈ (dmResolve o g m).2.2, p.2 = "normal" := by
  unfold dmResolve
  split
  · rcases ho : o.api (gamesLookupUrl g) with e | l
    · simp [ho]
    · rcases l with _ | ⟨gi, rest⟩
      · simp [ho]
      · rcases hm : o.api (modsLookupUrl (toString gi.id) m) with e | l2
        · simp [ho, hm]
        · rcases l2 with _ | ⟨mi, rest2⟩ <;> simp [ho, hm]
  · simp

/-! ## Claim theorems -/

/-- C9: for every input string, `parse_mod_url` returns either both
components (namespace and content) or neither; never a partial pair with
exactly one component present. -/
theorem parse_mod_url_both_or_neither (url : String) :
    (parse_mod_url url).1.isSome ↔ (parse_mod_url url).2.isSome := by
  unfold parse_mod_url
  rcases searchNum url.toList with _ | ⟨a, b⟩
  · rcases searchSlug url.toList with _ | ⟨a, b⟩ <;> simp
  · simp

/-- C3: on every exit path of a `download_mod` run — success or an exception
raised inside any stage — the challenge session's underlying browser/context
resources are released (the `async with async_playwright()` exit) before the
run terminates. -/
theorem session_released_on_every_path (o : Oracle) (fs : FS) (g m : String) :
    (download_mod o fs g m).released = true := by
  unfold download_mod
  cases hb : dmBody o (St.init fs) g m with
  | ok st => simp
  | error p =>
      obtain ⟨e, st⟩ := p
      simp [addMsg]

/-- C8: the input string `"1234:5678"` parses to the numeric identifier pair
`("1234", "5678")`, and the resolution block of `download_mod` passes that
pair through with zero lookup calls (its call list is empty) for every
oracle. -/
theorem idpair_input_no_resolver_calls :
    start_download_parse "1234:5678" = some ("1234", "5678") ∧
    ∀ o : Oracle,
      dmResolve o "1234" "5678" = (Except.ok ("1234", "5678"), [], []) := by
  refine ⟨by decide, fun o => ?_⟩
  rfl

/-- C2: when the `os.remove` call itself succeeds, the original container is
deleted if and only if an entry ending in `.pak` was found and its extraction
completed successfully; an archive with zero matching entries is left intact,
and a container that fails to open as a valid archive is not deleted. -/
theorem archive_deleted_iff_pak_extracted (z : ZipEnv) (fs : FS)
    (zp folder : String) (hrm : z.removeOk = true) :
    ((unzip_pak_file z fs zp folder).1.deleted = true ↔
      ∃ names n, z.openResult = ZipOpen.ok names ∧
        firstPak names = some n ∧ z.extractOk n = true) ∧
    (z.openResult = ZipOpen.bad →
      (unzip_pak_file z fs zp folder).1.deleted = false ∧
      (unzip_pak_file z fs zp folder).2 = fs) ∧
    (∀ names, z.openResult = ZipOpen.ok names → firstPak names = none →
      (unzip_pak_file z fs zp folder).1.deleted = false ∧
      (unzip_pak_file z fs zp folder).2 = fs) := by
  refine ⟨?_, ?_, ?_⟩
  · cases ho : z.openResult with
    | bad => simp [unzip_pak_file, ho]
    | ok names =>
        cases hf : firstPak names with
        | none => simp [unzip_pak_file, ho, hf]
        | some n =>
            cases hx : z.extractOk n with
            | false => simp [unzip_pak_file, ho, hf, hx]
            | true => simp [unzip_pak_file, ho, hf, hx, hrm]
  · intro hb
    simp [unzip_pak_file, hb]
  · intro names hn hf
    simp [unzip_pak_file, hn, hf]

/-- C6: when the archive opens and has an entry ending in `.pak`, the
normalizer extracts exactly the first such entry in archive enumeration
order — nothing before it matches and no other entry is extracted — into the
destination preserving its internal relative path. -/
theorem normalizer_extracts_first_pak (z : ZipEnv) (fs : FS)
    (zp folder : String) (names : List String) (n : String)
    (ho : z.openResult = ZipOpen.ok names)
    (hf : firstPak names = some n)
    (hx : z.extractOk n = true) :
    (unzip_pak_file z fs zp folder).1.extracted = [(n, joinPath folder n)] ∧
    ∃ p q, names = p ++ n :: q ∧ strEndsWith n ".pak" = true ∧
      ∀ y ∈ p, strEndsWith y ".pak" = false := by
  refine ⟨?_, firstPak_eq_some names n hf⟩
  rcases hr : z.removeOk with _ | _ <;>
    simp [unzip_pak_file, ho, hf, hx, hr]

/-- C1 counterexample: for the pair `("123", "cool-mod")` — the first slot
purely numeric, the second a slug — the resolution block of `download_mod`
DOES issue a lookup query for the numeric slot (`games?name_id=123` is the
first call issued), and the numeric value is not passed through unchanged:
with every lookup answering id 77, the resolved pair is `("77", "77")`. -/
theorem numeric_slot_lookup_issued_for_mixed_pair :
    pyIsDigit "123" = true ∧ pyIsDigit "cool-mod" = false ∧
    gamesLookupUrl "123" ∈ (dmResolve oMixed "123" "cool-mod").2.1 ∧
    (dmResolve oMixed "123" "cool-mod").1 = Except.ok ("77", "77") := by
  refine ⟨by decide, by decide, ?_, rfl⟩
  show gamesLookupUrl "123" ∈ [gamesLookupUrl "123", modsLookupUrl "77" "cool-mod"]
  simp

/-- C1 amended: the two slots are not resolved independently — whenever the
content slot is a slug, the Resolver issues the namespace lookup even for a
purely numeric namespace slot, using its raw value as the `name_id` filter
(numeric values pass through unchanged only when BOTH slots are numeric). -/
theorem resolver_lookup_covers_numeric_slot (o : Oracle) (g m : String)
    (hg : pyIsDigit g = true) (hm : pyIsDigit m = false) :
    (dmResolve o g m).2.1.head? = some (gamesLookupUrl g) := by
  have hcond : (!(pyIsDigit g) || !(pyIsDigit m)) = true := by
    simp [hg, hm]
  unfold dmResolve
  rw [if_pos hcond]
  rcases ho : o.api (gamesLookupUrl g) with e | l
  · simp [ho]
  · rcases l with _ | ⟨gi, rest⟩
    · simp [ho]
    · rcases hmod : o.api (modsLookupUrl (toString gi.id) m) with e | l2
      · simp [ho, hmod]
      · rcases l2 with _ | ⟨mi, rest2⟩ <;> simp [ho, hmod]

/-- C1 amended, witness: instantiated at `oMixed` with the mixed pair
`("123", "cool-mod")`. -/
theorem resolver_lookup_covers_numeric_slot_witness :
    pyIsDigit "123" = true ∧ pyIsDigit "cool-mod" = false ∧
    (dmResolve oMixed "123" "cool-mod").2.1.head? =
      some (gamesLookupUrl "123") :=
  ⟨by decide, by decide,
   resolver_lookup_covers_numeric_slot oMixed "123" "cool-mod"
     (by decide) (by decide)⟩

/-- C5: on the slug path, the Resolver issues exactly the namespace lookup
followed by the content lookup — in that order — and the content lookup URL
is scoped by the numeric id of the namespace lookup's first result. -/
theorem namespace_lookup_before_scoped_content_lookup (o : Oracle)
    (g m : String) (gi : ApiItem) (rest : List ApiItem)
    (hslug : pyIsDigit g = false)
    (hapi : o.api (gamesLookupUrl g) = Except.ok (gi :: rest)) :
    (dmResolve o g m).2.1 =
      [gamesLookupUrl g, modsLookupUrl (toString gi.id) m] := by
  have hcond : (!(pyIsDigit g) || !(pyIsDigit m)) = true := by
    simp [hslug]
  unfold dmResolve
  rw [if_pos hcond, hapi]
  rcases hmod : o.api (modsLookupUrl (toString gi.id) m) with e | l2
  · simp [hmod]
  · rcases l2 with _ | ⟨mi, rest2⟩ <;> simp [hmod]

/-- C5 witness: instantiated at `oMixed` with the slug pair
`("drg", "cool-mod")`; the namespace lookup answers id 77 and the content
lookup is scoped by it. -/
theorem namespace_lookup_before_scoped_content_lookup_witness :
    pyIsDigit "drg" = false ∧
    oMixed.api (gamesLookupUrl "drg") =
      Except.ok [⟨77, "file.zip", "https://cdn/bin"⟩] ∧
    (dmResolve oMixed "drg" "cool-mod").2.1 =
      [gamesLookupUrl "drg", modsLookupUrl "77" "cool-mod"] :=
  ⟨by decide, rfl,
   namespace_lookup_before_scoped_content_lookup oMixed "drg" "cool-mod"
     ⟨77, "file.zip", "https://cdn/bin"⟩ [] (by decide) rfl⟩

/-- C4: when the files-listing response has an empty `data` list, the run
emits the informational `No files found for this mod.` message with the
`normal` (non-error) tag, every message of the run is `normal` (no failure
outcome), no binary fetch is attempted, and the filesystem is untouched. -/
theorem empty_files_informational (o : Oracle) (fs : FS) (g m gid mid : String)
    (hgoto : o.goto = Except.ok ())
    (hres : (dmResolve o g m).1 = Except.ok (gid, mid))
    (hfiles : o.api (filesUrl gid mid) = Except.ok []) :
    (download_mod o fs g m).binCalls = [] ∧
    (download_mod o fs g m).fs = fs ∧
    ("No files found for this mod.\n", "normal") ∈ (download_mod o fs g m).msgs ∧
    ∀ p ∈ (download_mod o fs g m).msgs, p.2 = "normal" := by
  rcases hdm : dmResolve o g m with ⟨out, calls, ms⟩
  rw [hdm] at hres
  simp only [] at hres
  subst hres
  have hms : ∀ p ∈ ms, p.2 = "normal" := by
    have h := dmResolve_msgs_normal o g m
    rw [hdm] at h
    simpa using h
  refine ⟨?_, ?_, ?_, ?_⟩
  · simp [download_mod, dmBody, addMsg, St.init, hgoto, hdm, hfiles]
  · simp [download_mod, dmBody, addMsg, St.init, hgoto, hdm, hfiles]
  · simp [download_mod, dmBody, addMsg, St.init, hgoto, hdm, hfiles]
  · simp only [download_mod, dmBody, addMsg, St.init, hgoto, hdm, hfiles]
    intro p hp
    simp at hp
    rcases hp with h | h | h | h
    · rw [Prod.ext_iff] at h; exact h.2
    · rw [Prod.ext_iff] at h; exact h.2
    · exact hms p h
    · rcases h with h | h <;> (rw [Prod.ext_iff] at h; exact h.2)

/-- C7: for ANY initial state of the destination — already populated or not —
a run that reaches the retrieval stage writes the raw download to the one
path `DOWNLOAD_FOLDER/<filename>` determined by the metadata filename alone,
and afterwards that path holds exactly the fetched payload: re-running with
the same reference overwrites the prior download at the same final path. -/
theorem rerun_overwrites_same_path (o : Oracle) (fs : FS) (g m gid mid : String)
    (fi : ApiItem) (rest : List ApiItem) (payload : Bin)
    (hgoto : o.goto = Except.ok ())
    (hres : (dmResolve o g m).1 = Except.ok (gid, mid))
    (hfiles : o.api (filesUrl gid mid) = Except.ok (fi :: rest))
    (hbin : o.fetchBin fi.binary_url = Except.ok payload)
    (hzip : o.isZip payload = false) :
    (download_mod o fs g m).writes =
      [(joinPath DOWNLOAD_FOLDER fi.filename, payload)] ∧
    lookupFS (download_mod o fs g m).fs (joinPath DOWNLOAD_FOLDER fi.filename) =
      some payload := by
  rcases hdm : dmResolve o g m with ⟨out, calls, ms⟩
  rw [hdm] at hres
  simp only [] at hres
  subst hres
  constructor
  · simp [download_mod, dmBody, addMsg, St.init, hgoto, hdm, hfiles, hbin, hzip]
  · simp [download_mod, dmBody, addMsg, St.init, hgoto, hdm, hfiles, hbin, hzip,
      lookupFS_fsWrite]

/-- C10: the retriever forms the artifact path by joining the destination
directory with the metadata `filename` field verbatim — the recorded write
is exactly at `joinPath DOWNLOAD_FOLDER filename`, with no sanitization —
and there is a filename with parent-directory segments whose joined path
normalizes to a location outside the destination directory. -/
theorem filename_joined_verbatim_escapes_destination (o : Oracle) (fs : FS)
    (g m gid mid : String) (fi : ApiItem) (rest : List ApiItem) (payload : Bin)
    (hgoto : o.goto = Except.ok ())
    (hres : (dmResolve o g m).1 = Except.ok (gid, mid))
    (hfiles : o.api (filesUrl gid mid) = Except.ok (fi :: rest))
    (hbin : o.fetchBin fi.binary_url = Except.ok payload) :
    (download_mod o fs g m).writes =
      [(joinPath DOWNLOAD_FOLDER fi.filename, payload)] ∧
    ∃ fn : String, hasParentSeg fn = true ∧
      pathWithin DOWNLOAD_FOLDER (joinPath DOWNLOAD_FOLDER fn) = false := by
  rcases hdm : dmResolve o g m with ⟨out, calls, ms⟩
  rw [hdm] at hres
  simp only [] at hres
  subst hres
  refine ⟨?_, "../../evil.pak", by decide, by decide⟩
  cases hzip : o.isZip payload with
  | false =>
      simp [download_mod, dmBody, addMsg, St.init, hgoto, hdm, hfiles, hbin, hzip]
  | true =>
      simp [download_mod, dmBody, addMsg, St.init, hgoto, hdm, hfiles, hbin, hzip]

/-- C2 witness: instantiated at `zOnePak`, whose archive holds a `.pak`
entry and whose `os.remove` succeeds. -/
theorem archive_deleted_iff_pak_extracted_witness :
    zOnePak.removeOk = true ∧
    (((unzip_pak_file zOnePak [] "/app/downloaded/m.zip" DOWNLOAD_FOLDER).1.deleted
        = true ↔
      ∃ names n, zOnePak.openResult = ZipOpen.ok names ∧
        firstPak names = some n ∧ zOnePak.extractOk n = true) ∧
     (zOnePak.openResult = ZipOpen.bad →
       (unzip_pak_file zOnePak [] "/app/downloaded/m.zip" DOWNLOAD_FOLDER).1.deleted
          = false ∧
       (unzip_pak_file zOnePak [] "/app/downloaded/m.zip" DOWNLOAD_FOLDER).2 = []) ∧
     (∀ names, zOnePak.openResult = ZipOpen.ok names → firstPak names = none →
       (unzip_pak_file zOnePak [] "/app/downloaded/m.zip" DOWNLOAD_FOLDER).1.deleted
          = false ∧
       (unzip_pak_file zOnePak [] "/app/downloaded/m.zip" DOWNLOAD_FOLDER).2 = [])) :=
  ⟨rfl, archive_deleted_iff_pak_extracted zOnePak []
    "/app/downloaded/m.zip" DOWNLOAD_FOLDER rfl⟩

/-- C6 witness: instantiated at `zOnePak`, whose first `.pak` entry in
enumeration order is `sub/area.pak`. -/
theorem normalizer_extracts_first_pak_witness :
    zOnePak.openResult = ZipOpen.ok ["readme.txt", "sub/area.pak", "late.pak"] ∧
    firstPak ["readme.txt", "sub/area.pak", "late.pak"] = some "sub/area.pak" ∧
    zOnePak.extractOk "sub/area.pak" = true ∧
    ((unzip_pak_file zOnePak [] "/app/downloaded/m.zip" DOWNLOAD_FOLDER).1.extracted
        = [("sub/area.pak", joinPath DOWNLOAD_FOLDER "sub/area.pak")] ∧
     ∃ p q, ["readme.txt", "sub/area.pak", "late.pak"] = p ++ "sub/area.pak" :: q ∧
       strEndsWith "sub/area.pak" ".pak" = true ∧
       ∀ y ∈ p, strEndsWith y ".pak" = false) :=
  ⟨rfl, by decide, rfl,
   normalizer_extracts_first_pak zOnePak [] "/app/downloaded/m.zip" DOWNLOAD_FOLDER
     ["readme.txt", "sub/area.pak", "late.pak"] "sub/area.pak" rfl (by decide) rfl⟩

/-- C4 witness: instantiated at `oNoFiles`, whose files listing answers an
empty `data` list for the numeric pair `("10", "20")`. -/
theorem empty_files_informational_witness :
    oNoFiles.goto = Except.ok () ∧
    (dmResolve oNoFiles "10" "20").1 = Except.ok ("10", "20") ∧
    oNoFiles.api (filesUrl "10" "20") = Except.ok [] ∧
    ((download_mod oNoFiles [] "10" "20").binCalls = [] ∧
     (download_mod oNoFiles [] "10" "20").fs = [] ∧
     ("No files found for this mod.\n", "normal") ∈
       (download_mod oNoFiles [] "10" "20").msgs ∧
     ∀ p ∈ (download_mod oNoFiles [] "10" "20").msgs, p.2 = "normal") :=
  ⟨rfl, rfl, rfl,
   empty_files_informational oNoFiles [] "10" "20" "10" "20" rfl rfl rfl⟩

/-- C7 witness: instantiated at `oPlain` with a destination already holding
stale bytes `[0]` at the final path; the run overwrites them with `[5, 6]`. -/
theorem rerun_overwrites_same_path_witness :
    oPlain.goto = Except.ok () ∧
    (dmResolve oPlain "10" "20").1 = Except.ok ("10", "20") ∧
    oPlain.api (filesUrl "10" "20") =
      Except.ok [⟨9, "m.zip", "https://cdn/bin"⟩] ∧
    oPlain.fetchBin "https://cdn/bin" = Except.ok [5, 6] ∧
    oPlain.isZip [5, 6] = false ∧
    ((download_mod oPlain fsPopulated "10" "20").writes =
       [(joinPath DOWNLOAD_FOLDER "m.zip", [5, 6])] ∧
     lookupFS (download_mod oPlain fsPopulated "10" "20").fs
       (joinPath DOWNLOAD_FOLDER "m.zip") = some [5, 6]) :=
  ⟨rfl, rfl, rfl, rfl, rfl,
   rerun_overwrites_same_path oPlain fsPopulated "10" "20" "10" "20"
     ⟨9, "m.zip", "https://cdn/bin"⟩ [] [5, 6] rfl rfl rfl rfl rfl⟩

/-- C10 witness: instantiated at `oPlain`; the recorded write is at the
verbatim join of the destination and the metadata filename. -/
theorem filename_joined_verbatim_escapes_destination_witness :
    oPlain.goto = Except.ok () ∧
    (dmResolve oPlain "10" "20").1 = Except.ok ("10", "20") ∧
    oPlain.api (filesUrl "10" "20") =
      Except.ok [⟨9, "m.zip", "https://cdn/bin"⟩] ∧
    oPlain.fetchBin "https://cdn/bin" = Except.ok [5, 6] ∧
    ((download_mod oPlain [] "10" "20").writes =
       [(joinPath DOWNLOAD_FOLDER "m.zip", [5, 6])] ∧
     ∃ fn : String, hasParentSeg fn = true ∧
       pathWithin DOWNLOAD_FOLDER (joinPath DOWNLOAD_FOLDER fn) = false) :=
  ⟨rfl, rfl, rfl, rfl,
   filename_joined_verbatim_escapes_destination oPlain [] "10" "20" "10" "20"
     ⟨9, "m.zip", "https://cdn/bin"⟩ [] [5, 6] rfl rfl rfl rfl⟩
